import Mathlib

/-!
Shallow embedding of the DASPy multi-format reader
(`daspy/core/read.py`) and proofs about the claims of its
specification.

Numpy 2-D arrays are embedded as a shape (rows, columns), a dtype tag
and an entry function; Python slice semantics (`a[lo:hi]` clamps and
never fails for non-negative bounds) are embedded by `pySliceLen`.
Attribute lookups that may raise `KeyError` are embedded as `Option`;
uncaught Python exceptions are embedded as `Except` errors.
Absolute-time construction is delegated to an external collaborator in
the source, so parsed instants are embedded symbolically by the
`StartTime` inductive, which records which parse path produced the
value.
-/

namespace Daspy

/-- Errors of the reader: an unrecognized format tag, an uncaught
Python KeyError / IndexError / TypeError / ValueError (round of NaN) /
OverflowError (round of infinity). -/
inductive ReadErr where
  | unsupportedFormat
  | keyError
  | indexError
  | typeError
  | valueError
  | overflowError
  deriving DecidableEq, Repr

/-- Length of the Python slice a[lo:hi] of a sequence of length n,
for non-negative bounds: empty when inverted, clamped at n. -/
def pySliceLen (lo hi n : Nat) : Nat := min hi n - min lo n

/-- A numpy 2-D array: rows, columns, element type tag, entries. -/
structure Arr2 where
  r : Nat
  c : Nat
  dtype : String
  ent : Nat → Nat → Int

/-- Python row slice a[lo:hi, :]. -/
def rowSlice (a : Arr2) (lo hi : Nat) : Arr2 :=
  ⟨pySliceLen lo hi a.r, a.c, a.dtype, fun i j => a.ent (lo + i) j⟩

/-- Python column slice a[:, lo:hi]. -/
def colSlice (a : Arr2) (lo hi : Nat) : Arr2 :=
  ⟨a.r, pySliceLen lo hi a.c, a.dtype, fun i j => a.ent i (lo + j)⟩

/-- numpy transpose a.T. -/
def transposeA (a : Arr2) : Arr2 := ⟨a.c, a.r, a.dtype, fun i j => a.ent j i⟩

/-- numpy zeros_like: same shape and dtype, every entry zero. -/
def zerosLike (a : Arr2) : Arr2 := ⟨a.r, a.c, a.dtype, fun _ _ => 0⟩

/-- numpy diff of a 1-D array: consecutive differences. -/
def npDiff (xs : List ℚ) : List ℚ := List.zipWith (fun a b => b - a) xs xs.tail

/-- numpy mean of a 1-D array. -/
def listMean (xs : List ℚ) : ℚ := xs.sum / (xs.length : ℚ)

/-- Python round: round half to even (used for the raw-stream rate). -/
def pyRound (q : ℚ) : Int :=
  let fl := ⌊q⌋
  let frac := q - fl
  if frac < 1/2 then fl
  else if 1/2 < frac then fl + 1
  else if fl % 2 = 0 then fl else fl + 1

/-- Metadata dictionary returned by the bare-array branch of
`_read_pkl`: channel interval and sampling rate are the None
sentinels. -/
structure PklMeta where
  dx : Option ℚ
  fs : Option ℚ

/-- Embedding of the bare numpy-array branch of `_read_pkl`: a warning
is emitted, then a real read slices the requested rows (bounds
defaulting to 0 and the array length) while a metadata-only read
returns zeros_like of the full array, ignoring the window. -/
def read_pkl_array (pkl_data : Arr2) (req1 req2 : Option Nat)
    (read_data : Bool) : Arr2 × PklMeta × List String :=
  let w := ["This data format doesnt include channel interval" ++
            "and sampling rate. Please set manually"]
  if read_data then
    let ch1 := req1.getD 0
    let ch2 := req2.getD pkl_data.r
    (rowSlice pkl_data ch1 ch2, { dx := none, fs := none }, w)
  else
    (zerosLike pkl_data, { dx := none, fs := none }, w)

/-- Symbolic result of the absolute-time collaborator: records which
parse path of the source produced the instant. -/
inductive StartTime where
  | zero
  | longForm (s : String)
  | naiveUTC (s : String)
  | microEpochUTC (v : ℚ)
  | secEpochUTC (v : ℚ)
  | fromDatetime (v : Int)
  deriving DecidableEq, Repr

/-- Dispatch of `_read_h5_starttime` on a string value: strings longer
than 26 characters are parsed with the offset-aware format
(strftime %z), shorter ones with the naive format and then converted
to UTC. -/
def parseStimeStr (s : String) : StartTime :=
  if 26 < s.length then .longForm s else .naiveUTC s

/-- Embedding of `_read_h5_starttime`: try the PartStartTime attribute,
else the MeasurementStartTime attribute, else the first RawDataTime
value divided by 1e6, else return 0.  A present but empty RawDataTime
dataset raises IndexError (uncaught in the source). -/
def read_h5_starttime (part meas : Option String) (rdt : Option (List ℚ)) :
    Except ReadErr StartTime :=
  match part with
  | some s => .ok (parseStimeStr s)
  | none =>
    match meas with
    | some s => .ok (parseStimeStr s)
    | none =>
      match rdt with
      | none => .ok .zero
      | some ts =>
        match ts.head? with
        | some v => .ok (.microEpochUTC (v / 1000000))
        | none => .error .indexError

/-- Sampling rate derived from the mean spacing of a microsecond-scale
time array (`1 / (np.diff(time_arr).mean() / 1e6)`). -/
def derivedRateMicro (ts : List ℚ) : ℚ := 1 / (listMean (npDiff ts) / 1000000)

/-- Embedding of the acquisition-v1 rate fallback: the OutputDataRate
attribute if present, else the rate derived from RawDataTime; a missing
RawDataTime dataset raises KeyError (uncaught in the source). -/
def acqFs (odr : Option ℚ) (rdt : Option (List ℚ)) : Except ReadErr ℚ :=
  match odr with
  | some v => .ok v
  | none =>
    match rdt with
    | some ts => .ok (derivedRateMicro ts)
    | none => .error .keyError

/-- Channel-window resolution of the h5 readers: the requested bounds
(defaulting to 0 and the channel count) are taken as-is, with no
clamping and no validation. -/
def h5_resolve_window (req1 req2 : Option Nat) (nch : Nat) : Nat × Nat :=
  (req1.getD 0, req2.getD nch)

/-- Data extraction of the acquisition-v1 branch of `_read_h5`
(orientation detection, slicing, zero stub): when the leading on-disk
dimension equals the channel count the array is taken channel-major and
its rows are sliced; otherwise columns are sliced and the result is
transposed.  With read_data off, zeros_like of the full dataset is
produced (transposed in the sample-major case). -/
def h5_acq_data (a : Arr2) (nch ch1 ch2 : Nat) (read_data : Bool) : Arr2 :=
  if a.r = nch then
    if read_data then rowSlice a ch1 ch2 else zerosLike a
  else
    if read_data then transposeA (colSlice a ch1 ch2) else transposeA (zerosLike a)

/-- Data extraction of the data_product branch of `_read_h5`, identical
in structure to the acquisition-v1 one. -/
def h5_dp_data (a : Arr2) (nch ch1 ch2 : Nat) (read_data : Bool) : Arr2 :=
  if a.r = nch then
    if read_data then rowSlice a ch1 ch2 else zerosLike a
  else
    if read_data then transposeA (colSlice a ch1 ch2) else transposeA (zerosLike a)

/-- The attributes and datasets of an acquisition-v1 container that the
reader touches. -/
structure H5AcqFile where
  numberOfLoci : Option Nat
  rawData : Arr2
  outputDataRate : Option ℚ
  rawDataTime : Option (List ℚ)
  spatialSamplingInterval : Option ℚ
  gaugeLength : Option ℚ
  partStartTime : Option String
  measurementStartTime : Option String

/-- Metadata dictionary built by the acquisition-v1 branch. -/
structure AcqMeta where
  fs : ℚ
  dx : ℚ
  start_channel : Nat
  start_distance : ℚ
  gauge_length : ℚ
  start_time : StartTime

/-- Embedding of the acquisition-v1 branch of `_read_h5`: channel count
from the NumberOfLoci attribute (else the leading dataset dimension),
window from the requested bounds, data by orientation-normalized
slicing or a zero stub, then rate / spacing / gauge length / start time;
a missing SpatialSamplingInterval or GaugeLength attribute raises
KeyError. -/
def read_h5_acquisition (f : H5AcqFile) (req1 req2 : Option Nat)
    (read_data : Bool) : Except ReadErr (Arr2 × AcqMeta) :=
  let nch := f.numberOfLoci.getD f.rawData.r
  let w := h5_resolve_window req1 req2 nch
  let data := h5_acq_data f.rawData nch w.1 w.2 read_data
  match acqFs f.outputDataRate f.rawDataTime with
  | .error e => .error e
  | .ok fs =>
    match f.spatialSamplingInterval with
    | none => .error .keyError
    | some dx =>
      match f.gaugeLength with
      | none => .error .keyError
      | some gl =>
        match read_h5_starttime f.partStartTime f.measurementStartTime
            f.rawDataTime with
        | .error e => .error e
        | .ok st =>
          .ok (data, { fs := fs, dx := dx, start_channel := w.1,
                       start_distance := (w.1 : ℚ) * dx,
                       gauge_length := gl, start_time := st })

/-- Row count of a successful h5 acquisition read. -/
def readResultRows (x : Except ReadErr (Arr2 × AcqMeta)) : Option Nat :=
  match x with
  | .ok (d, _) => some d.r
  | .error _ => none

/-- Column count of a successful h5 acquisition read. -/
def readResultCols (x : Except ReadErr (Arr2 × AcqMeta)) : Option Nat :=
  match x with
  | .ok (d, _) => some d.c
  | .error _ => none

/-- Resolved start channel of a successful h5 acquisition read. -/
def readResultStartChannel (x : Except ReadErr (Arr2 × AcqMeta)) : Option Nat :=
  match x with
  | .ok (_, m) => some m.start_channel
  | .error _ => none

/-- The datasets of a raw-stream container that the reader touches. -/
structure H5RawFile where
  raw : Arr2
  timestamp : List ℚ

/-- Metadata dictionary built by the raw branch: the channel spacing is
always the None sentinel. -/
structure RawMeta where
  fs : Int
  dx : Option ℚ
  start_time : StartTime

/-- Rate computation of the raw branch,
round(1 / np.diff(timestamp).mean()): with fewer than two timestamps
np.diff is empty, its mean is NaN and round raises ValueError; with a
zero mean spacing 1/0.0 is infinity and round raises OverflowError;
otherwise the reciprocal mean spacing rounded half to even. -/
def rawFs (ts : List ℚ) : Except ReadErr Int :=
  let d := npDiff ts
  if d.length = 0 then .error .valueError
  else
    let m := listMean d
    if m = 0 then .error .overflowError
    else .ok (pyRound (1 / m))

/-- Embedding of the raw branch of `_read_h5`: channel count is the
leading dimension of the raw dataset, the window is the unvalidated
requested bounds, the rate is round(1 / mean diff of the timestamp
array) with its uncaught error cases, the start time is the first
timestamp at second-epoch scale (IndexError when the timestamp dataset
is empty), the spacing is the None sentinel, and exactly one warning
is emitted. -/
def read_h5_raw (f : H5RawFile) (req1 req2 : Option Nat) (read_data : Bool) :
    Except ReadErr (Arr2 × RawMeta × List String) :=
  let nch := f.raw.r
  let ch1 := req1.getD 0
  let ch2 := req2.getD nch
  let data := if read_data then rowSlice f.raw ch1 ch2 else zerosLike f.raw
  match rawFs f.timestamp with
  | .error e => .error e
  | .ok fs =>
    match f.timestamp.head? with
    | none => .error .indexError
    | some t0 =>
      .ok (data, { fs := fs, dx := none, start_time := .secEpochUTC t0 },
           ["This data format doesnt include channel interval. " ++
            "Please set manually"])

/-- A TDMS timestamp header slot: absent, present but empty (falsy), or
present with a value. -/
inductive HSlot where
  | absent
  | empty
  | val (v : Int)
  deriving DecidableEq, Repr

/-- The value of a slot when it is present and non-empty. -/
def HSlot.hasVal : HSlot → Option Int
  | .val v => some v
  | _ => none

/-- Embedding of the `for key in [...]` loop of `_read_tdms`: the first
header that is present and non-empty provides the start time; start
time stays 0 when none does. -/
def tdms_fallback_time : List HSlot → StartTime
  | [] => .zero
  | s :: rest =>
    match s with
    | .val v => .fromDatetime v
    | _ => tdms_fallback_time rest

/-- Embedding of the start-time chain of `_read_tdms`: the combined
ISO8601 Timestamp header parsed with the offset-aware format when
present, else the first present non-empty one of the GPSTimeStamp,
CPUTimeStamp and Trigger Time headers in that order, else 0. -/
def read_tdms_starttime (iso : Option String) (gps cpu trig : HSlot) :
    StartTime :=
  match iso with
  | some s => .longForm s
  | none => tdms_fallback_time [gps, cpu, trig]

/-- Channel-window resolution of `_read_tdms` (both the multi-channel
and the single-channel branch): the lower bound is clamped from below
by the intrinsic start channel, the upper bound from above by the
intrinsic end. -/
def tdms_resolve_window (req1 req2 : Option Int) (start_channel nch : Int) :
    Int × Int :=
  (max (req1.getD start_channel) start_channel,
   min (req2.getD (start_channel + nch)) (start_channel + nch))

/-- The TDMS headers that the metadata portion of `_read_tdms`
touches. -/
structure TdmsHeaders where
  spatialResolutionM : Option ℚ
  spatialResolution : Option ℚ
  samplingFrequency : Option ℚ
  timeBase : Option ℚ
  startDistance : Option ℚ
  iso8601 : Option String
  gps : HSlot
  cpu : HSlot
  trigger : HSlot
  gaugeLengthHdr : Option ℚ

/-- Spacing chain of `_read_tdms`: the SpatialResolution[m] header,
else the Spatial Resolution header, else None. -/
def tdms_dx (h : TdmsHeaders) : Option ℚ :=
  match h.spatialResolutionM with
  | some v => some v
  | none => h.spatialResolution

/-- Rate chain of `_read_tdms`: the SamplingFrequency[Hz] header, else
the reciprocal of the Time Base header, else None. -/
def tdms_fs (h : TdmsHeaders) : Option ℚ :=
  match h.samplingFrequency with
  | some v => some v
  | none =>
    match h.timeBase with
    | some tb => some (1 / tb)
    | none => none

/-- Start-distance computation of `_read_tdms`: with the Start Distance
header present the code evaluates that header plus dx times
(ch1 - start_channel); without it, dx times ch1.  Either way, when dx
is the None sentinel the multiplication raises TypeError, which the
source does not catch. -/
def tdms_start_distance (h : TdmsHeaders) (ch1 start_channel : Int) :
    Except ReadErr ℚ :=
  match h.startDistance with
  | some sd =>
    match tdms_dx h with
    | some d => .ok (sd + d * ((ch1 : ℚ) - (start_channel : ℚ)))
    | none => .error .typeError
  | none =>
    match tdms_dx h with
    | some d => .ok (d * (ch1 : ℚ))
    | none => .error .typeError

/-- Metadata dictionary built by `_read_tdms`. -/
structure TdmsMeta where
  fs : Option ℚ
  dx : Option ℚ
  start_channel : Int
  start_distance : ℚ
  start_time : StartTime
  gauge_length : Option ℚ

/-- Embedding of the metadata portion of `_read_tdms` (spacing, rate,
start distance, start time, gauge length). -/
def read_tdms_meta (h : TdmsHeaders) (ch1 start_channel : Int) :
    Except ReadErr TdmsMeta :=
  match tdms_start_distance h ch1 start_channel with
  | .error e => .error e
  | .ok sd =>
    .ok { fs := tdms_fs h, dx := tdms_dx h, start_channel := ch1,
          start_distance := sd,
          start_time := read_tdms_starttime h.iso8601 h.gps h.cpu h.trigger,
          gauge_length := h.gaugeLengthHdr }

/-- ASCII lower-casing of one character (Python str.lower on the ASCII
file suffixes and tags involved here). -/
def lowerChar (c : Char) : Char :=
  if 'A' ≤ c ∧ c ≤ 'Z' then Char.ofNat (c.toNat + 32) else c

/-- Python str.lower (ASCII range). -/
def pyLower (s : String) : String := ⟨s.data.map lowerChar⟩

/-- Helper of pySplitDot: accumulate the current component. -/
def splitDotAux : List Char → List Char → List (List Char)
  | [], acc => [acc.reverse]
  | c :: rest, acc =>
    if c = '.' then acc.reverse :: splitDotAux rest []
    else splitDotAux rest (c :: acc)

/-- Python str.split(".") — never empty, one component when there is no
dot. -/
def pySplitDot (s : String) : List String :=
  (splitDotAux s.data []).map fun l => ⟨l⟩

/-- Helper of pyReplace: left-to-right non-overlapping replacement; the
counter skips the remainder of a match that was just emitted. -/
def replaceAux (pat rep : List Char) : Nat → List Char → List Char
  | _ + 1, [] => []
  | skip + 1, _ :: rest => replaceAux pat rep skip rest
  | 0, [] => []
  | 0, c :: rest =>
    if pat.isPrefixOf (c :: rest) then
      rep ++ replaceAux pat rep (pat.length - 1) rest
    else
      c :: replaceAux pat rep 0 rest

/-- Python str.replace for a non-empty pattern: every non-overlapping
occurrence, scanned left to right. -/
def pyReplace (s pat rep : String) : String :=
  ⟨replaceAux pat.data rep.data 0 s.data⟩

/-- The recognized format tags (the keys of fun_map in `read`). -/
def fun_map_tags : List String := ["pkl", "pickle", "tdms", "h5", "sgy", "npy"]

/-- Alias normalization of `read`: every occurrence of "hdf5" is
replaced by "h5", then every occurrence of "segy" by "sgy". -/
def normalizeAlias (t : String) : String :=
  pyReplace (pyReplace t "hdf5" "h5") "segy" "sgy"

/-- The lower-cased last dot-separated component of the file name
(str(fname).lower().split(".")[-1]). -/
def lowerSuffix (fname : String) : String :=
  (pySplitDot (pyLower fname)).getLastD ""

/-- Format-tag resolution of `read`: the explicit override if given,
else the lower-cased file-name suffix, then alias normalization. -/
def resolve_ftype (ftype : Option String) (fname : String) : String :=
  let t :=
    match ftype with
    | some t => t
    | none => lowerSuffix fname
  normalizeAlias t

/-- Dispatch of `read`: the resolved tag is looked up in fun_map; an
unknown tag fails (KeyError in the source, the UnsupportedFormat of the
specification). -/
def dispatch_ftype (ftype : Option String) (fname : String) :
    Except ReadErr String :=
  let t := resolve_ftype ftype fname
  if fun_map_tags.contains t then .ok t else .error .unsupportedFormat

/-- Return value of the top-level `read` after a successful per-format
read: a Section or the raw (data, metadata) pair. -/
inductive ReadReturn where
  | sec (data : Arr2) (meta : AcqMeta)
  | arr (data : Arr2) (meta : AcqMeta)

/-- Embedding of the output_type dispatch at the end of `read`: an
output_type that is neither "section" nor "array" (case-insensitively)
falls through both branches and the function returns None. -/
def read_output_stage (output_type : String) (d : Arr2) (m : AcqMeta) :
    Option ReadReturn :=
  if pyLower output_type = "section" then some (.sec d m)
  else if pyLower output_type = "array" then some (.arr d m)
  else none

/-- Whether an Except value is a success. -/
def isOkE {ε α : Type} : Except ε α → Bool
  | .ok _ => true
  | .error _ => false

/-- Channel-spacing field of a successful raw-stream read. -/
def rawResultDx (x : Except ReadErr (Arr2 × RawMeta × List String)) :
    Option (Option ℚ) :=
  match x with
  | .ok (_, m, _) => some m.dx
  | .error _ => none

/-- Number of warnings emitted by a successful raw-stream read. -/
def rawResultDiagCount (x : Except ReadErr (Arr2 × RawMeta × List String)) :
    Option Nat :=
  match x with
  | .ok (_, _, w) => some w.length
  | .error _ => none

/-- A concrete acquisition-v1 container with 3 channels and 2 samples,
stored channel-major, with every attribute the reader needs. -/
def exF : H5AcqFile :=
  { numberOfLoci := some 3, rawData := ⟨3, 2, "f32", fun _ _ => 7⟩,
    outputDataRate := some 100, rawDataTime := none,
    spatialSamplingInterval := some 1, gaugeLength := some 10,
    partStartTime := none, measurementStartTime := none }

/-- Concrete TDMS headers carrying neither spacing header (and no
start-distance, rate or time headers). -/
def c8Headers : TdmsHeaders :=
  { spatialResolutionM := none, spatialResolution := none,
    samplingFrequency := none, timeBase := none, startDistance := none,
    iso8601 := none, gps := .absent, cpu := .absent, trigger := .absent,
    gaugeLengthHdr := none }

/-- A concrete channel-major 3 x 2 array. -/
def exA : Arr2 := ⟨3, 2, "f32", fun _ _ => 7⟩

/-- A concrete metadata record. -/
def exMeta : AcqMeta :=
  { fs := 1, dx := 1, start_channel := 0, start_distance := 0,
    gauge_length := 1, start_time := .zero }

/-- The sample-major on-disk array of the specification scenario:
1000 samples by 50 channels. -/
def scenArr : Arr2 := ⟨1000, 50, "f32", fun _ _ => 1⟩

/-- A concrete raw-stream container with a non-empty timestamp
dataset. -/
def exRaw : H5RawFile :=
  { raw := ⟨2, 3, "f64", fun _ _ => 1⟩, timestamp := [0, 1, 2] }

/-- A concrete raw-stream container whose timestamp dataset holds a
single entry. -/
def exRawBad : H5RawFile :=
  { raw := ⟨2, 3, "f64", fun _ _ => 1⟩, timestamp := [7] }

/-- Python slice length equals the window width for an in-range
window. -/
lemma pySliceLen_of_le (ch1 ch2 n : Nat) (h1 : ch1 ≤ ch2) (h2 : ch2 ≤ n) :
    pySliceLen ch1 ch2 n = ch2 - ch1 := by
  unfold pySliceLen
  rw [min_eq_left h2, min_eq_left (h1.trans h2)]

/-- np.diff shortens a 1-D array by one. -/
lemma npDiff_length (xs : List ℚ) : (npDiff xs).length = xs.length - 1 := by
  simp [npDiff]

/-- Claim C1, counterexample.  The claim says a read with read_data off
returns a matrix of identical shape to the read_data-on read for the
same window.  On a channel-major acquisition-v1 container with 3
channels and the window (1, 2), the real read has 1 row while the stub
has 3 rows: the zero stub is built from the full dataset and ignores
the window, so the claim as stated is false. -/
theorem C1_counterexample :
    readResultRows (read_h5_acquisition exF (some 1) (some 2) false) ≠
      readResultRows (read_h5_acquisition exF (some 1) (some 2) true) ∧
    readResultRows (read_h5_acquisition exF (some 1) (some 2) false) =
      some 3 ∧
    readResultRows (read_h5_acquisition exF (some 1) (some 2) true) =
      some 1 := by
  refine ⟨by decide, rfl, rfl⟩

/-- Claim C1, amended.  For every container (h5 acquisition-style in
either on-disk orientation, and the serialized bare-array reader), the
read_data-off stub is entirely zero and keeps the dtype of the real
read, but its shape is that of the full on-disk data
(orientation-normalized: nch rows for h5, the full array for pkl),
while the real read of an in-range window has ch2 - ch1 rows; the two
shapes agree exactly when the window spans every channel. -/
theorem C1_zero_stub :
    (∀ (a : Arr2) (nch ch1 ch2 ns : Nat), ch1 ≤ ch2 → ch2 ≤ nch →
       (a.r = nch ∧ a.c = ns) ∨ (a.r = ns ∧ a.c = nch) →
       (∀ i j, (h5_acq_data a nch ch1 ch2 false).ent i j = 0) ∧
       (h5_acq_data a nch ch1 ch2 false).dtype =
         (h5_acq_data a nch ch1 ch2 true).dtype ∧
       (h5_acq_data a nch ch1 ch2 false).r = nch ∧
       (h5_acq_data a nch ch1 ch2 false).c = ns ∧
       (h5_acq_data a nch ch1 ch2 true).r = ch2 - ch1 ∧
       (h5_acq_data a nch ch1 ch2 true).c = ns ∧
       ((h5_acq_data a nch ch1 ch2 false).r =
          (h5_acq_data a nch ch1 ch2 true).r ↔ nch = ch2 - ch1)) ∧
    (∀ (p : Arr2) (ch1 ch2 : Nat), ch1 ≤ ch2 → ch2 ≤ p.r →
       (∀ i j, (read_pkl_array p (some ch1) (some ch2) false).1.ent i j = 0) ∧
       (read_pkl_array p (some ch1) (some ch2) false).1.dtype =
         (read_pkl_array p (some ch1) (some ch2) true).1.dtype ∧
       (read_pkl_array p (some ch1) (some ch2) false).1.r = p.r ∧
       (read_pkl_array p (some ch1) (some ch2) true).1.r = ch2 - ch1 ∧
       ((read_pkl_array p (some ch1) (some ch2) false).1.r =
          (read_pkl_array p (some ch1) (some ch2) true).1.r ↔
          p.r = ch2 - ch1)) := by
  constructor
  · intro a nch ch1 ch2 ns hle hn ho
    by_cases hr : a.r = nch
    · have hc : a.c = ns := by
        rcases ho with ⟨_, h⟩ | ⟨h1a, h2a⟩
        · exact h
        · have hnn : ns = nch := by rw [← h1a, hr]
          rw [h2a, hnn]
      unfold h5_acq_data
      simp [hr, zerosLike, rowSlice, hc, pySliceLen_of_le _ _ _ hle hn]
    · rcases ho with ⟨hra, _⟩ | ⟨hra, hca⟩
      · exact absurd hra hr
      · have hne : ¬ ns = nch := fun h => hr (hra.trans h)
        unfold h5_acq_data
        simp [hr, hne, zerosLike, transposeA, colSlice, hca, hra,
          pySliceLen_of_le _ _ _ hle hn]
  · intro p ch1 ch2 hle hp
    unfold read_pkl_array
    simp [zerosLike, rowSlice, pySliceLen_of_le _ _ _ hle hp]

/-- Claim C1, witness for the amended theorem at the sample-major
(1000, 50) scenario container for the h5 part and the 3 x 2 container
with window (1, 2) for the pkl part. -/
theorem C1_zero_stub_witness :
    ((∀ i j, (h5_acq_data scenArr 50 0 50 false).ent i j = 0) ∧
     (h5_acq_data scenArr 50 0 50 false).dtype =
       (h5_acq_data scenArr 50 0 50 true).dtype ∧
     (h5_acq_data scenArr 50 0 50 false).r = 50 ∧
     (h5_acq_data scenArr 50 0 50 false).c = 1000 ∧
     (h5_acq_data scenArr 50 0 50 true).r = 50 - 0 ∧
     (h5_acq_data scenArr 50 0 50 true).c = 1000 ∧
     ((h5_acq_data scenArr 50 0 50 false).r =
        (h5_acq_data scenArr 50 0 50 true).r ↔ 50 = 50 - 0)) ∧
    ((∀ i j, (read_pkl_array exA (some 1) (some 2) false).1.ent i j = 0) ∧
     (read_pkl_array exA (some 1) (some 2) false).1.dtype =
       (read_pkl_array exA (some 1) (some 2) true).1.dtype ∧
     (read_pkl_array exA (some 1) (some 2) false).1.r = exA.r ∧
     (read_pkl_array exA (some 1) (some 2) true).1.r = 2 - 1 ∧
     ((read_pkl_array exA (some 1) (some 2) false).1.r =
        (read_pkl_array exA (some 1) (some 2) true).1.r ↔
        exA.r = 2 - 1)) :=
  ⟨C1_zero_stub.1 scenArr 50 0 50 1000 (by decide) (by decide)
     (Or.inr ⟨rfl, rfl⟩),
   C1_zero_stub.2 exA 1 2 (by decide) (by decide)⟩

/-- Claim C2, counterexample.  The claim says non-clamping variants
fail with InvalidChannelWindow on an empty or inverted resolved window
and never return such a window.  The h5 acquisition reader, requested
with the inverted window (3, 2) on a 3-channel container, succeeds and
returns start_channel 3 with a 0-row matrix: nothing fails and the
inverted window is returned. -/
theorem C2_counterexample :
    isOkE (read_h5_acquisition exF (some 3) (some 2) true) = true ∧
    readResultStartChannel (read_h5_acquisition exF (some 3) (some 2) true) =
      some 3 ∧
    readResultRows (read_h5_acquisition exF (some 3) (some 2) true) =
      some 0 :=
  ⟨rfl, rfl, rfl⟩

/-- Claim C2, amended.  The TDMS reader clamps the lower bound from
below by the intrinsic start channel and the upper bound from above by
the intrinsic end; the h5 readers take the requested (or default)
bounds entirely unvalidated, and slicing turns an inverted window into
a 0-row matrix instead of an InvalidChannelWindow failure. -/
theorem C2_window_policy :
    (∀ (r1 r2 : Option Int) (sc n : Int),
       sc ≤ (tdms_resolve_window r1 r2 sc n).1 ∧
       (tdms_resolve_window r1 r2 sc n).2 ≤ sc + n) ∧
    (∀ (r1 r2 : Option Nat) (nch : Nat),
       h5_resolve_window r1 r2 nch = (r1.getD 0, r2.getD nch)) ∧
    (∀ (a : Arr2) (nch ch1 ch2 : Nat), a.r = nch →
       (h5_acq_data a nch ch1 ch2 true).r = pySliceLen ch1 ch2 nch ∧
       (ch2 ≤ ch1 → (h5_acq_data a nch ch1 ch2 true).r = 0)) := by
  refine ⟨fun r1 r2 sc n => ⟨le_max_right _ _, min_le_right _ _⟩,
    fun _ _ _ => rfl, ?_⟩
  intro a nch ch1 ch2 hr
  constructor
  · simp [h5_acq_data, hr, rowSlice]
  · intro hle
    simp only [h5_acq_data, hr, if_true, if_pos rfl, rowSlice]
    exact Nat.sub_eq_zero_of_le (min_le_min hle le_rfl)

/-- Claim C2, witness for the amended theorem at concrete windows. -/
theorem C2_window_policy_witness :
    (2 : Int) ≤ (tdms_resolve_window (some 0) (some 99) 2 10).1 ∧
    (tdms_resolve_window (some 0) (some 99) 2 10).2 ≤ 2 + 10 ∧
    h5_resolve_window (some 3) (some 2) 4 = (3, 2) ∧
    (h5_acq_data exA 3 1 2 true).r = pySliceLen 1 2 3 ∧
    (h5_acq_data exA 3 2 1 true).r = 0 :=
  ⟨(C2_window_policy.1 (some 0) (some 99) 2 10).1,
   (C2_window_policy.1 (some 0) (some 99) 2 10).2,
   C2_window_policy.2.1 (some 3) (some 2) 4,
   (C2_window_policy.2.2 exA 3 1 2 rfl).1,
   (C2_window_policy.2.2 exA 3 2 1 rfl).2 (by decide)⟩

/-- Claim C3.  For an acquisition-v1 or data-product container whose
on-disk array is either channel-major (nch, ns) or sample-major
(ns, nch), a real read of an in-range window always yields the
channel-major shape (ch2 - ch1, ns): orientation is detected by
comparing the leading dimension to the channel count and the
sample-major case is transposed. -/
theorem C3_output_shape (a : Arr2) (nch ch1 ch2 ns : Nat) (h1 : ch1 ≤ ch2)
    (h2 : ch2 ≤ nch)
    (ho : (a.r = nch ∧ a.c = ns) ∨ (a.r = ns ∧ a.c = nch)) :
    ((h5_acq_data a nch ch1 ch2 true).r = ch2 - ch1 ∧
     (h5_acq_data a nch ch1 ch2 true).c = ns) ∧
    ((h5_dp_data a nch ch1 ch2 true).r = ch2 - ch1 ∧
     (h5_dp_data a nch ch1 ch2 true).c = ns) := by
  have main : (h5_acq_data a nch ch1 ch2 true).r = ch2 - ch1 ∧
      (h5_acq_data a nch ch1 ch2 true).c = ns := by
    unfold h5_acq_data
    by_cases hr : a.r = nch
    · simp only [hr, if_true, if_pos rfl]
      constructor
      · simp [rowSlice, hr, pySliceLen_of_le ch1 ch2 nch h1 h2]
      · rcases ho with ⟨_, hc⟩ | ⟨hra, hca⟩
        · simpa [rowSlice]
        · simp [rowSlice, hca, ← hra, hr]
    · rcases ho with ⟨hra, _⟩ | ⟨hra, hca⟩
      · exact absurd hra hr
      · have hne : ¬ ns = nch := by rw [← hra]; exact hr
        simp [hr, hne, transposeA, colSlice, hca, hra,
          pySliceLen_of_le ch1 ch2 nch h1 h2]
  exact ⟨main, main⟩

/-- Claim C3, witness: the specification scenario of a count attribute
of 50 and a sample-major on-disk array shaped (1000, 50) yields an
output shaped (50, 1000). -/
theorem C3_output_shape_witness :
    ((h5_acq_data scenArr 50 0 50 true).r = 50 - 0 ∧
     (h5_acq_data scenArr 50 0 50 true).c = 1000) ∧
    ((h5_dp_data scenArr 50 0 50 true).r = 50 - 0 ∧
     (h5_dp_data scenArr 50 0 50 true).c = 1000) :=
  C3_output_shape scenArr 50 0 50 1000 (by decide) (by decide)
    (Or.inr ⟨rfl, rfl⟩)

/-- Claim C4.  When the explicit OutputDataRate attribute is present,
the resolved sampling rate is exactly its value, independent of the
per-sample time array (so the derived value is never used, even when
the two disagree), and any successful acquisition read reports that
value; the derived rate is used exactly when the attribute is
absent. -/
theorem C4_rate_priority (f : H5AcqFile) (v : ℚ)
    (hodr : f.outputDataRate = some v) :
    acqFs f.outputDataRate f.rawDataTime = .ok v ∧
    (∀ ts : Option (List ℚ), acqFs f.outputDataRate ts = .ok v) ∧
    (∀ (r1 r2 : Option Nat) (rd : Bool) (d : Arr2) (m : AcqMeta),
       read_h5_acquisition f r1 r2 rd = .ok (d, m) → m.fs = v) ∧
    (∀ ts : List ℚ, acqFs none (some ts) = .ok (derivedRateMicro ts)) := by
  refine ⟨by simp [acqFs, hodr], fun ts => by simp [acqFs, hodr], ?_,
    fun ts => rfl⟩
  intro r1 r2 rd d m h
  unfold read_h5_acquisition at h
  simp only [acqFs, hodr] at h
  rcases hsp : f.spatialSamplingInterval with _ | dx <;> rw [hsp] at h
  · cases h
  rcases hgl : f.gaugeLength with _ | gl <;> rw [hgl] at h
  · cases h
  rcases hst : read_h5_starttime f.partStartTime f.measurementStartTime
      f.rawDataTime with e | st <;> rw [hst] at h
  · cases h
  cases h
  rfl

/-- Claim C4, witness at the concrete container exF whose
OutputDataRate is 100. -/
theorem C4_rate_priority_witness :
    acqFs exF.outputDataRate exF.rawDataTime = .ok 100 ∧
    (∀ ts : Option (List ℚ), acqFs exF.outputDataRate ts = .ok 100) ∧
    (∀ (r1 r2 : Option Nat) (rd : Bool) (d : Arr2) (m : AcqMeta),
       read_h5_acquisition exF r1 r2 rd = .ok (d, m) → m.fs = 100) ∧
    (∀ ts : List ℚ, acqFs none (some ts) = .ok (derivedRateMicro ts)) :=
  C4_rate_priority exF 100 rfl

/-- Claim C5.  For an acquisition-v1 container whose PartStartTime
attribute (when present) is a long-form string and whose
MeasurementStartTime attribute (when present) is a short-form string,
the start time is resolved by exactly the chain: long-form
offset-aware parse of PartStartTime, else naive-UTC parse of
MeasurementStartTime, else the first per-sample time value at
microsecond-epoch scale, else the sentinel zero — each later step only
when every earlier one is unavailable. -/
theorem C5_h5_starttime_chain (part meas : Option String)
    (rdt : Option (List ℚ))
    (hp : ∀ s, part = some s → 26 < s.length)
    (hm : ∀ s, meas = some s → s.length ≤ 26) :
    (∀ s, part = some s →
       read_h5_starttime part meas rdt = .ok (.longForm s)) ∧
    (part = none → ∀ s, meas = some s →
       read_h5_starttime part meas rdt = .ok (.naiveUTC s)) ∧
    (part = none → meas = none → ∀ ts v, rdt = some ts → ts.head? = some v →
       read_h5_starttime part meas rdt = .ok (.microEpochUTC (v / 1000000))) ∧
    (part = none → meas = none → rdt = none →
       read_h5_starttime part meas rdt = .ok .zero) := by
  refine ⟨?_, ?_, ?_, ?_⟩
  · intro s hs
    subst hs
    simp [read_h5_starttime, parseStimeStr, hp s rfl]
  · intro hpn s hs
    subst hpn hs
    simp [read_h5_starttime, parseStimeStr, Nat.not_lt.mpr (hm s rfl)]
  · intro hpn hmn ts v hts hv
    subst hpn hmn hts
    simp [read_h5_starttime, hv]
  · intro hpn hmn hrn
    subst hpn hmn hrn
    rfl

/-- Claim C5, witness at a concrete 32-character long-form attribute, a
26-character short-form attribute and a one-element time array. -/
theorem C5_h5_starttime_chain_witness :
    (∀ s, some "2024-01-01T00:00:00.000000+00:00" = some s →
       read_h5_starttime (some "2024-01-01T00:00:00.000000+00:00")
         (some "2024-01-01T00:00:00.000000") (some [(5 : ℚ)]) =
         .ok (.longForm s)) ∧
    (some "2024-01-01T00:00:00.000000+00:00" = none →
       ∀ s, some "2024-01-01T00:00:00.000000" = some s →
       read_h5_starttime (some "2024-01-01T00:00:00.000000+00:00")
         (some "2024-01-01T00:00:00.000000") (some [(5 : ℚ)]) =
         .ok (.naiveUTC s)) ∧
    (some "2024-01-01T00:00:00.000000+00:00" = none →
       some "2024-01-01T00:00:00.000000" = none →
       ∀ (ts : List ℚ) (v : ℚ), some [(5 : ℚ)] = some ts →
       ts.head? = some v →
       read_h5_starttime (some "2024-01-01T00:00:00.000000+00:00")
         (some "2024-01-01T00:00:00.000000") (some [(5 : ℚ)]) =
         .ok (.microEpochUTC (v / 1000000))) ∧
    (some "2024-01-01T00:00:00.000000+00:00" = none →
       some "2024-01-01T00:00:00.000000" = none →
       some [(5 : ℚ)] = none →
       read_h5_starttime (some "2024-01-01T00:00:00.000000+00:00")
         (some "2024-01-01T00:00:00.000000") (some [(5 : ℚ)]) =
         .ok .zero) :=
  C5_h5_starttime_chain (some "2024-01-01T00:00:00.000000+00:00")
    (some "2024-01-01T00:00:00.000000") (some [(5 : ℚ)])
    (by intro s hs; cases hs; decide)
    (by intro s hs; cases hs; decide)

/-- Claim C6.  For the TDMS reader, the start time is the parse of the
combined ISO8601 Timestamp header when present; otherwise the first
present non-empty one of the GPSTimeStamp, CPUTimeStamp and Trigger
Time headers, in that order; otherwise the sentinel zero. -/
theorem C6_tdms_starttime_chain (iso : Option String) (gps cpu trig : HSlot) :
    (∀ s, iso = some s →
       read_tdms_starttime iso gps cpu trig = .longForm s) ∧
    (iso = none → ∀ v, gps = .val v →
       read_tdms_starttime iso gps cpu trig = .fromDatetime v) ∧
    (iso = none → gps.hasVal = none → ∀ v, cpu = .val v →
       read_tdms_starttime iso gps cpu trig = .fromDatetime v) ∧
    (iso = none → gps.hasVal = none → cpu.hasVal = none → ∀ v, trig = .val v →
       read_tdms_starttime iso gps cpu trig = .fromDatetime v) ∧
    (iso = none → gps.hasVal = none → cpu.hasVal = none → trig.hasVal = none →
       read_tdms_starttime iso gps cpu trig = .zero) := by
  refine ⟨?_, ?_, ?_, ?_, ?_⟩
  · intro s hs
    subst hs
    rfl
  · intro hn v hv
    subst hn hv
    rfl
  · intro hn hg v hv
    subst hn hv
    cases gps <;> simp_all [read_tdms_starttime, tdms_fallback_time,
      HSlot.hasVal]
  · intro hn hg hc v hv
    subst hn hv
    cases gps <;> cases cpu <;> simp_all [read_tdms_starttime,
      tdms_fallback_time, HSlot.hasVal]
  · intro hn hg hc ht
    subst hn
    cases gps <;> cases cpu <;> cases trig <;> simp_all [read_tdms_starttime,
      tdms_fallback_time, HSlot.hasVal]

/-- Claim C6, witness: no ISO header, an empty GPS header and a CPU
value 5 resolve to the CPU value. -/
theorem C6_tdms_starttime_chain_witness :
    (∀ s, (none : Option String) = some s →
       read_tdms_starttime none .empty (.val 5) .absent = .longForm s) ∧
    ((none : Option String) = none → ∀ v, HSlot.empty = .val v →
       read_tdms_starttime none .empty (.val 5) .absent = .fromDatetime v) ∧
    ((none : Option String) = none → HSlot.empty.hasVal = none →
       ∀ v, HSlot.val 5 = .val v →
       read_tdms_starttime none .empty (.val 5) .absent = .fromDatetime v) ∧
    ((none : Option String) = none → HSlot.empty.hasVal = none →
       (HSlot.val 5).hasVal = none → ∀ v, HSlot.absent = .val v →
       read_tdms_starttime none .empty (.val 5) .absent = .fromDatetime v) ∧
    ((none : Option String) = none → HSlot.empty.hasVal = none →
       (HSlot.val 5).hasVal = none → HSlot.absent.hasVal = none →
       read_tdms_starttime none .empty (.val 5) .absent = .zero) :=
  C6_tdms_starttime_chain none .empty (.val 5) .absent

/-- Claim C7, counterexample.  The claim says every raw-stream read
still succeeds.  For a raw-stream container whose timestamp dataset
holds a single entry, np.diff is empty, its mean is NaN, and
round(1/NaN-derived mean) raises an uncaught ValueError, so the call
fails instead of succeeding with sentinels. -/
theorem C7_counterexample :
    read_h5_raw exRawBad none none true = .error .valueError ∧
    isOkE (read_h5_raw exRawBad none none true) = false :=
  ⟨rfl, rfl⟩

/-- Claim C7, amended.  A raw-stream read whose timestamp dataset has
at least two entries and a nonzero mean spacing succeeds, reports the
None sentinel for the channel spacing, and emits exactly one
diagnostic; with fewer than two timestamp entries the rate computation
raises an uncaught ValueError (and with zero mean spacing an uncaught
OverflowError), so the call fails. -/
theorem C7_raw_unknown_spacing (f : H5RawFile) (r1 r2 : Option Nat) (rd : Bool)
    (h2 : 2 ≤ f.timestamp.length)
    (hm : listMean (npDiff f.timestamp) ≠ 0) :
    isOkE (read_h5_raw f r1 r2 rd) = true ∧
    rawResultDx (read_h5_raw f r1 r2 rd) = some none ∧
    rawResultDiagCount (read_h5_raw f r1 r2 rd) = some 1 := by
  have hd : ¬ (npDiff f.timestamp).length = 0 := by
    rw [npDiff_length]
    omega
  cases hts : f.timestamp with
  | nil => simp [hts] at h2
  | cons t ts =>
    rw [hts] at hd hm
    simp [read_h5_raw, rawFs, hts, hd, hm, isOkE, rawResultDx,
      rawResultDiagCount]

/-- Claim C7, witness at the concrete raw-stream container exRaw with
timestamps 0, 1, 2. -/
theorem C7_raw_unknown_spacing_witness :
    isOkE (read_h5_raw exRaw none none true) = true ∧
    rawResultDx (read_h5_raw exRaw none none true) = some none ∧
    rawResultDiagCount (read_h5_raw exRaw none none true) = some 1 :=
  C7_raw_unknown_spacing exRaw none none true (by decide)
    (by simp [exRaw, npDiff, listMean])

/-- Claim C8.  The claim says unknown spacing leaves start_distance as
the unknown sentinel, but when both spacing headers are absent the TDMS
spacing falls back to the None sentinel and the start-distance
computation then multiplies None by an integer, an uncaught TypeError:
the embedded reader errors at this input instead of succeeding with a
sentinel. -/
theorem C8_tdms_spacing_crash :
    tdms_dx c8Headers = none ∧
    read_tdms_meta c8Headers 0 0 = .error .typeError :=
  ⟨rfl, rfl⟩

/-- Claim C9.  The format tag is the explicit override when given, else
the lower-cased last file-name suffix; the aliases hdf5 and segy are
rewritten to h5 and sgy before dispatch; a resolved tag outside the
recognized set fails with UnsupportedFormat, one inside dispatches to
its reader. -/
theorem C9_format_dispatch (ftype : Option String) (fname : String) :
    (∀ t, ftype = some t → resolve_ftype ftype fname = normalizeAlias t) ∧
    (ftype = none → resolve_ftype ftype fname =
       normalizeAlias (lowerSuffix fname)) ∧
    (normalizeAlias "hdf5" = "h5" ∧ normalizeAlias "segy" = "sgy") ∧
    (fun_map_tags.contains (resolve_ftype ftype fname) = false →
       dispatch_ftype ftype fname = .error .unsupportedFormat) ∧
    (fun_map_tags.contains (resolve_ftype ftype fname) = true →
       dispatch_ftype ftype fname = .ok (resolve_ftype ftype fname)) := by
  refine ⟨fun t ht => by simp [resolve_ftype, ht],
    fun hn => by simp [resolve_ftype, hn],
    ⟨by decide, by decide⟩,
    fun hc => by simp only [dispatch_ftype, hc]; rfl,
    fun hc => by simp only [dispatch_ftype, hc]; rfl⟩

/-- Claim C9, witness: the hdf5 alias dispatches as h5 (also from an
upper-case file suffix), the segy suffix as sgy, and the unknown tag
mat fails. -/
theorem C9_format_dispatch_witness :
    resolve_ftype (some "hdf5") "x" = "h5" ∧
    resolve_ftype none "A.SEGY" = "sgy" ∧
    dispatch_ftype (some "mat") "x.foo" = .error .unsupportedFormat ∧
    dispatch_ftype none "data.HDF5" = .ok "h5" :=
  ⟨((C9_format_dispatch (some "hdf5") "x").1 "hdf5" rfl).trans (by decide),
   ((C9_format_dispatch none "A.SEGY").2.1 rfl).trans (by decide),
   (C9_format_dispatch (some "mat") "x.foo").2.2.2.1 (by decide),
   (C9_format_dispatch none "data.HDF5").2.2.2.2 (by decide)⟩

/-- Claim C10.  After a successful per-format read, an output_type that
lower-cases to neither section nor array falls through both branches of
the top-level read, which returns None without raising. -/
theorem C10_output_type (ot : String) (d : Arr2) (m : AcqMeta)
    (h1 : pyLower ot ≠ "section") (h2 : pyLower ot ≠ "array") :
    read_output_stage ot d m = none := by
  simp [read_output_stage, h1, h2]

/-- Claim C10, witness at the concrete output_type Dict. -/
theorem C10_output_type_witness :
    read_output_stage "Dict" exA exMeta = none :=
  C10_output_type "Dict" exA exMeta (by decide) (by decide)

end Daspy
